import Mathlib

/-!
Shallow embedding of the Real-Debrid MCP server (`src/index.py`) in Lean 4.

Remote HTTP calls are modelled by passing each call's response as an
explicit argument; the in-memory token store (`user_tokens`) is passed
and returned explicitly.  Raised Python exceptions become `Except` errors.
-/

namespace RDMCP

/-- Parsed JSON values, as produced by `response.json()`.  An object's
field list is encoded as a cons chain (`objCons key value rest` ending in
`objNil`) so that equality stays structurally decidable. -/
inductive Json where
  | str (s : String)
  | num (n : Int)
  | boolean (b : Bool)
  | null
  | objNil
  | objCons (key : String) (value : Json) (rest : Json)
  deriving Repr, DecidableEq

/-- Build a JSON object from a field list. -/
def Json.mkObj : List (String × Json) → Json
  | [] => .objNil
  | (k, v) :: rest => .objCons k v (mkObj rest)

/-- `data.get(key)` on a parsed JSON object: the value at `key`, if any. -/
def Json.get : Json → String → Option Json
  | .objCons k v rest, key => if k = key then some v else rest.get key
  | _, _ => none

/-- `data.get(key, default)`. -/
def Json.getD (j : Json) (k : String) (d : Json) : Json :=
  (j.get k).getD d

/-- A JSON string field coerced to a Lean string (the OAuth protocol
fields extracted below are JSON strings). -/
def Json.asString : Json → String
  | .str s => s
  | _ => ""

/-- A JSON numeric field coerced to an integer (`expires_in` is a number). -/
def Json.asInt : Json → Int
  | .num n => n
  | _ => 0

/-- An HTTP response: status code plus parsed JSON body. -/
structure HttpResp where
  status : Nat
  body : Json
  deriving Repr, DecidableEq

/-- Errors the Python code can raise.  `upstream msg code` models
`raise Exception(f"Real-Debrid API Error: {error_msg} (Code: {error_code})")`,
keeping the two interpolated remote-provided values structurally.
`toolError` models `raise ToolError(msg)`; `keyError k` models the
`KeyError` raised by `data[k]` on a missing key. -/
inductive Err where
  | upstream (error : Json) (error_code : Json)
  | toolError (msg : String)
  | keyError (k : String)
  deriving Repr, DecidableEq

/-- Embedding of `rd_api_request`'s response handling (`index.py` 53-63):
204 yields the success sentinel, then the body is parsed; status >= 400
raises with the remote `error` / `error_code` (with the code's defaults);
otherwise the parsed payload is returned verbatim. -/
def rd_api_request (resp : HttpResp) : Except Err Json :=
  if resp.status = 204 then
    .ok (Json.mkObj [("success", .boolean true)])
  else
    let data := resp.body
    if resp.status ≥ 400 then
      .error (.upstream (data.getD "error" (.str "Unknown error"))
                        (data.getD "error_code" (.str "N/A")))
    else
      .ok data

/-- Per-authorization OAuth client credentials. -/
structure Creds where
  clientId : String
  clientSecret : String
  deriving Repr, DecidableEq

/-- Embedding of `get_device_credentials` (`index.py` 83-97): any non-200
status means the user has not authorized yet (`None`); on 200 the
`client_id` / `client_secret` fields are read (`KeyError` if absent). -/
def get_device_credentials (resp : HttpResp) : Except Err (Option Creds) :=
  if resp.status ≠ 200 then
    .ok none
  else
    match resp.body.get "client_id" with
    | none => .error (.keyError "client_id")
    | some cid =>
      match resp.body.get "client_secret" with
      | none => .error (.keyError "client_secret")
      | some csec => .ok (some ⟨cid.asString, csec.asString⟩)

/-- An access/refresh token pair with its lifetime. -/
structure TokenTriple where
  accessToken : String
  refreshToken : String
  expiresIn : Int
  deriving Repr, DecidableEq

/-- Embedding of `get_access_token` (`index.py` 100-126): non-200 yields
`None` (pending); on 200 the three token fields are read. -/
def get_access_token (resp : HttpResp) : Except Err (Option TokenTriple) :=
  if resp.status ≠ 200 then
    .ok none
  else
    match resp.body.get "access_token" with
    | none => .error (.keyError "access_token")
    | some at_ =>
      match resp.body.get "refresh_token" with
      | none => .error (.keyError "refresh_token")
      | some rt =>
        match resp.body.get "expires_in" with
        | none => .error (.keyError "expires_in")
        | some ei => .ok (some ⟨at_.asString, rt.asString, ei.asInt⟩)

/-- Embedding of `refresh_access_token` (`index.py` 129-152): the status
code is never inspected; the body's `access_token`, `refresh_token` and
`expires_in` are read directly, raising `KeyError` on a missing field. -/
def refresh_access_token (resp : HttpResp) : Except Err TokenTriple :=
  match resp.body.get "access_token" with
  | none => .error (.keyError "access_token")
  | some at_ =>
    match resp.body.get "refresh_token" with
    | none => .error (.keyError "refresh_token")
    | some rt =>
      match resp.body.get "expires_in" with
      | none => .error (.keyError "expires_in")
      | some ei => .ok ⟨at_.asString, rt.asString, ei.asInt⟩

/-- One entry of `user_tokens` (`index.py` 200-206). -/
structure TokenRecord where
  accessToken : String
  refreshToken : String
  expiresAt : Int
  clientId : String
  clientSecret : String
  deriving Repr, DecidableEq

/-- The in-memory `user_tokens` dict, as an association list keyed by
session id (first occurrence wins on lookup; keys are kept unique by
`TokenStore.insert`). -/
abbrev TokenStore := List (String × TokenRecord)

/-- `user_tokens.get(session_id)`. -/
def TokenStore.find (s : TokenStore) (k : String) : Option TokenRecord :=
  match s with
  | [] => none
  | (k', v) :: rest => if k' = k then some v else find rest k

/-- `user_tokens[session_id] = record`: overwrite in place if the key
exists, else append. -/
def TokenStore.insert (s : TokenStore) (k : String) (v : TokenRecord) : TokenStore :=
  match s with
  | [] => [(k, v)]
  | (k', v') :: rest => if k' = k then (k, v) :: rest else (k', v') :: insert rest k v

/-- `f"session_{int(time.time())}_{os.urandom(4).hex()}"` (`index.py` 199):
the session id minted at integer second `t` with random hex suffix `r`. -/
def mintSessionId (t : Int) (r : String) : String :=
  "session_" ++ toString t ++ "_" ++ r

/-- Outcome of `oauth_check`: the `status`/`session_id` fields of the
returned JSON. -/
inductive CheckResult where
  | pending (message : String)
  | authorized (session_id : String) (expires_in : Int)
  deriving Repr, DecidableEq

/-- Embedding of `oauth_check` (`index.py` 174-215).  `credsResp` and
`tokenResp` are the responses of the two remote calls; `tNow` is
`time.time()` at the store step and `rand` the `os.urandom(4).hex()` draw.
A `None` from either poll yields `pending` with the respective message;
otherwise a fresh record is stored under the minted id. -/
def oauth_check (credsResp tokenResp : HttpResp) (store : TokenStore)
    (tNow : Int) (rand : String) : Except Err (CheckResult × TokenStore) :=
  match get_device_credentials credsResp with
  | .error e => .error e
  | .ok none =>
    .ok (.pending "User has not authorized yet. Please complete authorization at real-debrid.com/device", store)
  | .ok (some credentials) =>
    match get_access_token tokenResp with
    | .error e => .error e
    | .ok none =>
      .ok (.pending "Authorization in progress. Please try again in a few seconds.", store)
    | .ok (some tokens) =>
      let session_id := mintSessionId tNow rand
      let record : TokenRecord :=
        { accessToken := tokens.accessToken
          refreshToken := tokens.refreshToken
          expiresAt := tNow + tokens.expiresIn
          clientId := credentials.clientId
          clientSecret := credentials.clientSecret }
      .ok (.authorized session_id tokens.expiresIn, store.insert session_id record)

/-- The downstream Real-Debrid API request a tool hands to
`rd_api_request`: endpoint, bearer token, method and form body. -/
structure RDRequest where
  endpoint : String
  accessToken : String
  method : String
  body : Option (List (String × String))
  deriving Repr, DecidableEq

deriving instance DecidableEq for Except

/-- Observable outcome of one tool invocation: its result (or raised
error), the token store afterwards, whether `refresh_access_token` was
invoked, and the downstream API request issued (if any). -/
structure OpResult where
  result : Except Err Json
  store : TokenStore
  refreshCalled : Bool
  sentRequest : Option RDRequest
  deriving Repr, DecidableEq

/-- Embedding of `get_user_info` (`index.py` 220-244).  `tCheck` is
`time.time()` at the expiry check, `tWrite` at the `expiresAt` update;
`refreshResp` is the token endpoint's response (consulted only when the
refresh path runs) and `userResp` the `/user` response. -/
def get_user_info (store : TokenStore) (session_id : String)
    (tCheck tWrite : Int) (refreshResp userResp : HttpResp) : OpResult :=
  match store.find session_id with
  | none =>
    { result := .error (.toolError "Invalid session_id. Please authenticate first using oauth_start and oauth_check.")
      store := store, refreshCalled := false, sentRequest := none }
  | some session =>
    if tCheck ≥ session.expiresAt then
      match refresh_access_token refreshResp with
      | .error e =>
        { result := .error e, store := store, refreshCalled := true, sentRequest := none }
      | .ok new_tokens =>
        let session' : TokenRecord :=
          { session with
            accessToken := new_tokens.accessToken
            refreshToken := new_tokens.refreshToken
            expiresAt := tWrite + new_tokens.expiresIn }
        { result := rd_api_request userResp
          store := store.insert session_id session'
          refreshCalled := true
          sentRequest := some { endpoint := "/user", accessToken := session'.accessToken,
                                method := "GET", body := none } }
    else
      { result := rd_api_request userResp
        store := store, refreshCalled := false
        sentRequest := some { endpoint := "/user", accessToken := session.accessToken,
                              method := "GET", body := none } }

/-- Python truthiness of an optional string argument (`if password:`,
`if filter:`): `None` and the empty string are falsy. -/
def pyTruthy : Option String → Bool
  | none => false
  | some s => s ≠ ""

/-- Embedding of `unrestrict_link` (`index.py` 248-266).  Note: the code
performs no expiry check and no refresh here — the stored `accessToken`
is used as-is. -/
def unrestrict_link (store : TokenStore) (session_id link : String)
    (password : Option String) (linkResp : HttpResp) : OpResult :=
  match store.find session_id with
  | none =>
    { result := .error (.toolError "Invalid session_id. Please authenticate first.")
      store := store, refreshCalled := false, sentRequest := none }
  | some session =>
    let body := [("link", link)] ++
      (if pyTruthy password then [("password", password.getD "")] else [])
    { result := rd_api_request linkResp
      store := store, refreshCalled := false
      sentRequest := some { endpoint := "/unrestrict/link", accessToken := session.accessToken,
                            method := "POST", body := some body } }

/-- Embedding of `list_torrents` (`index.py` 270-287): no expiry check,
no refresh; optional `filter` appended as a query string when truthy. -/
def list_torrents (store : TokenStore) (session_id : String)
    (filt : Option String) (listResp : HttpResp) : OpResult :=
  match store.find session_id with
  | none =>
    { result := .error (.toolError "Invalid session_id. Please authenticate first.")
      store := store, refreshCalled := false, sentRequest := none }
  | some session =>
    let endpoint := "/torrents" ++
      (if pyTruthy filt then "?filter=" ++ filt.getD "" else "")
    { result := rd_api_request listResp
      store := store, refreshCalled := false
      sentRequest := some { endpoint := endpoint, accessToken := session.accessToken,
                            method := "GET", body := none } }

/-- Embedding of `add_magnet` (`index.py` 291-304): no expiry check, no
refresh. -/
def add_magnet (store : TokenStore) (session_id magnet : String)
    (addResp : HttpResp) : OpResult :=
  match store.find session_id with
  | none =>
    { result := .error (.toolError "Invalid session_id. Please authenticate first.")
      store := store, refreshCalled := false, sentRequest := none }
  | some session =>
    { result := rd_api_request addResp
      store := store, refreshCalled := false
      sentRequest := some { endpoint := "/torrents/addMagnet", accessToken := session.accessToken,
                            method := "POST", body := some [("magnet", magnet)] } }

/-!
Concurrency model for the refresh path of `get_user_info` (`index.py`
226-241).  Under asyncio, `await refresh_access_token(...)` is the only
suspension point between the expiry check and the store write: the
lookup/check (lines 226-232) run synchronously, then the task suspends
issuing the refresh call, then the three field writes and the store write
(lines 238-241) run synchronously on resumption.  A task is therefore a
two-step program, and two concurrent invocations for the same session are
an interleaving of their steps.
-/

/-- Where a `get_user_info` task stands: before its synchronous
lookup/check, suspended at the `await` of the refresh call, or done with
its store write (or finished without refreshing). -/
inductive Phase where
  | start
  | refreshing
  | finished
  deriving Repr, DecidableEq

/-- Shared state plus the two tasks' phases; `refreshCalls` counts how
many refresh HTTP requests have been issued. -/
structure ConcState where
  store : TokenStore
  refreshCalls : Nat
  phaseA : Phase
  phaseB : Phase
  deriving Repr, DecidableEq

/-- One scheduling step of a single `get_user_info` task for session
`session_id` at time `tNow`, whose refresh call (if issued) returns
`resp`.  From `start` it performs the synchronous lookup and expiry
check, issuing a refresh call (count increments) and suspending when the
token is expired; from `refreshing` it resumes and performs the record
writes of lines 238-241. -/
def refreshTaskStep (session_id : String) (tNow : Int) (resp : TokenTriple)
    (store : TokenStore) (calls : Nat) (p : Phase) :
    TokenStore × Nat × Phase :=
  match p with
  | .start =>
    match store.find session_id with
    | none => (store, calls, .finished)
    | some s =>
      if tNow ≥ s.expiresAt then (store, calls + 1, .refreshing)
      else (store, calls, .finished)
  | .refreshing =>
    match store.find session_id with
    | none => (store, calls, .finished)
    | some s =>
      (store.insert session_id
        { s with
          accessToken := resp.accessToken
          refreshToken := resp.refreshToken
          expiresAt := tNow + resp.expiresIn },
       calls, .finished)
  | .finished => (store, calls, .finished)

/-- Run an interleaving of two concurrent `get_user_info` tasks A and B
for the same session: `false` schedules a step of A, `true` a step of B. -/
def runSchedule (session_id : String) (tNow : Int) (respA respB : TokenTriple) :
    List Bool → ConcState → ConcState
  | [], st => st
  | b :: rest, st =>
    let st' : ConcState :=
      if b then
        match refreshTaskStep session_id tNow respB st.store st.refreshCalls st.phaseB with
        | (s, c, p) => { store := s, refreshCalls := c, phaseA := st.phaseA, phaseB := p }
      else
        match refreshTaskStep session_id tNow respA st.store st.refreshCalls st.phaseA with
        | (s, c, p) => { store := s, refreshCalls := c, phaseA := p, phaseB := st.phaseB }
    runSchedule session_id tNow respA respB rest st'

/-- Looking a key up after an overwrite-or-append insert: the inserted key
maps to the new record, every other key is untouched. -/
theorem TokenStore.find_insert (s : TokenStore) (k q : String) (v : TokenRecord) :
    (s.insert k v).find q = if q = k then some v else s.find q := by
  induction s with
  | nil =>
    simp only [TokenStore.insert, TokenStore.find]
    by_cases h : q = k
    · subst h
      simp
    · have h2 : ¬ k = q := fun hh => h hh.symm
      simp [h, h2]
  | cons hd tl ih =>
    obtain ⟨k', v'⟩ := hd
    simp only [TokenStore.insert]
    by_cases hk : k' = k
    · subst hk
      simp only [if_pos rfl, TokenStore.find]
      by_cases hq : k' = q
      · subst hq
        simp
      · have h2 : ¬ q = k' := fun hh => hq hh.symm
        simp [hq, h2]
    · simp only [if_neg hk, TokenStore.find]
      by_cases hq : k' = q
      · subst hq
        simp [hk]
      · simp [hq, ih]

/-- Inserting a key absent from the store appends a record: the store
grows by exactly one entry. -/
theorem TokenStore.length_insert_of_fresh (s : TokenStore) (k : String)
    (v : TokenRecord) (h : s.find k = none) :
    (s.insert k v).length = s.length + 1 := by
  induction s with
  | nil => rfl
  | cons hd tl ih =>
    obtain ⟨k', v'⟩ := hd
    simp only [TokenStore.find] at h
    by_cases hk : k' = k
    · simp [hk] at h
    · rw [if_neg hk] at h
      simp [TokenStore.insert, hk, ih h]

/-- Claim C1: the claim says every proxied operation refreshes an expired
token before issuing its downstream request.  In the code only
`get_user_info` has that path: `unrestrict_link`, `list_torrents` and
`add_magnet` read no clock and never refresh.  Here the stored record has
`expiresAt = 100`, so at any current time >= 100 its token is expired, yet
each of the three operations issues its downstream request bearing the
stored token `expired-tok` with no refresh call. -/
theorem c1_ops_send_expired_token_without_refresh :
    (unrestrict_link [("S", ⟨"expired-tok", "rt0", 100, "cid", "cs"⟩)] "S"
        "http://x" none ⟨200, Json.null⟩).refreshCalled = false
  ∧ (unrestrict_link [("S", ⟨"expired-tok", "rt0", 100, "cid", "cs"⟩)] "S"
        "http://x" none ⟨200, Json.null⟩).sentRequest =
      some ⟨"/unrestrict/link", "expired-tok", "POST", some [("link", "http://x")]⟩
  ∧ (list_torrents [("S", ⟨"expired-tok", "rt0", 100, "cid", "cs"⟩)] "S"
        none ⟨200, Json.null⟩).refreshCalled = false
  ∧ (list_torrents [("S", ⟨"expired-tok", "rt0", 100, "cid", "cs"⟩)] "S"
        none ⟨200, Json.null⟩).sentRequest =
      some ⟨"/torrents", "expired-tok", "GET", none⟩
  ∧ (add_magnet [("S", ⟨"expired-tok", "rt0", 100, "cid", "cs"⟩)] "S"
        "magnet:x" ⟨200, Json.null⟩).refreshCalled = false
  ∧ (add_magnet [("S", ⟨"expired-tok", "rt0", 100, "cid", "cs"⟩)] "S"
        "magnet:x" ⟨200, Json.null⟩).sentRequest =
      some ⟨"/torrents/addMagnet", "expired-tok", "POST", some [("magnet", "magnet:x")]⟩ := by
  decide

/-- Claim C2: for a stored session whose token is still valid
(`tCheck < expiresAt`), `get_user_info` issues no refresh call, leaves the
store unmodified, and sends the stored `accessToken` unchanged on the
downstream `/user` request. -/
theorem c2_valid_token_no_refresh (store : TokenStore) (session_id : String)
    (rec : TokenRecord) (tCheck tWrite : Int) (refreshResp userResp : HttpResp)
    (hfind : store.find session_id = some rec) (hvalid : tCheck < rec.expiresAt) :
    get_user_info store session_id tCheck tWrite refreshResp userResp =
      { result := rd_api_request userResp
        store := store
        refreshCalled := false
        sentRequest := some { endpoint := "/user", accessToken := rec.accessToken,
                              method := "GET", body := none } } := by
  unfold get_user_info
  rw [hfind]
  simp [not_le.mpr hvalid]

/-- Witness for C2 at a concrete valid session. -/
theorem c2_valid_token_no_refresh_witness :
    get_user_info [("S", ⟨"AT", "RT", 100, "c", "s"⟩)] "S" 50 50
        ⟨200, Json.null⟩ ⟨204, Json.null⟩ =
      { result := .ok (Json.mkObj [("success", .boolean true)])
        store := [("S", ⟨"AT", "RT", 100, "c", "s"⟩)]
        refreshCalled := false
        sentRequest := some ⟨"/user", "AT", "GET", none⟩ } :=
  (c2_valid_token_no_refresh [("S", ⟨"AT", "RT", 100, "c", "s"⟩)] "S"
    ⟨"AT", "RT", 100, "c", "s"⟩ 50 50 ⟨200, Json.null⟩ ⟨204, Json.null⟩
    (by decide) (by decide)).trans (by decide)

/-- Claim C3: for a stored session with `tCheck >= expiresAt` and a
successful refresh, `get_user_info` invokes the refresh and writes back a
record replacing `accessToken`, `refreshToken` and `expiresAt` together
(`expiresAt = tWrite + expiresIn` from the refresh response), keeping
`clientId`/`clientSecret` unchanged, and uses the new access token on the
downstream request. -/
theorem c3_refresh_replaces_record (store : TokenStore) (session_id : String)
    (rec : TokenRecord) (tCheck tWrite : Int) (refreshResp userResp : HttpResp)
    (tok : TokenTriple)
    (hfind : store.find session_id = some rec) (hexp : tCheck ≥ rec.expiresAt)
    (href : refresh_access_token refreshResp = .ok tok) :
    get_user_info store session_id tCheck tWrite refreshResp userResp =
      { result := rd_api_request userResp
        store := store.insert session_id
          { accessToken := tok.accessToken
            refreshToken := tok.refreshToken
            expiresAt := tWrite + tok.expiresIn
            clientId := rec.clientId
            clientSecret := rec.clientSecret }
        refreshCalled := true
        sentRequest := some { endpoint := "/user", accessToken := tok.accessToken,
                              method := "GET", body := none } } := by
  unfold get_user_info
  rw [hfind]
  simp [hexp, href]

/-- Witness for C3: the spec's concrete refresh scenario (expired record,
refresh returns T2 with `expires_in = 3600`, write at time 105). -/
theorem c3_refresh_replaces_record_witness :
    get_user_info [("S", ⟨"at0", "rt0", 100, "cid", "cs"⟩)] "S" 100 105
        ⟨200, Json.mkObj [("access_token", .str "T2"), ("refresh_token", .str "RT2"),
                          ("expires_in", .num 3600)]⟩
        ⟨200, Json.null⟩ =
      { result := .ok Json.null
        store := [("S", ⟨"T2", "RT2", 3705, "cid", "cs"⟩)]
        refreshCalled := true
        sentRequest := some ⟨"/user", "T2", "GET", none⟩ } :=
  (c3_refresh_replaces_record [("S", ⟨"at0", "rt0", 100, "cid", "cs"⟩)] "S"
    ⟨"at0", "rt0", 100, "cid", "cs"⟩ 100 105
    ⟨200, Json.mkObj [("access_token", .str "T2"), ("refresh_token", .str "RT2"),
                      ("expires_in", .num 3600)]⟩
    ⟨200, Json.null⟩ ⟨"T2", "RT2", 3600⟩
    (by decide) (by decide) (by decide)).trans (by decide)

/-- Claim C4: when the credentials poll returns any non-200 status,
`oauth_check` reports `pending` (a result carrying no session id) and
returns the token store unchanged, so repeated pending checks are a no-op
on the store. -/
theorem c4_non200_poll_pending_noop (credsResp tokenResp : HttpResp)
    (store : TokenStore) (tNow : Int) (rand : String)
    (h : credsResp.status ≠ 200) :
    oauth_check credsResp tokenResp store tNow rand =
      .ok (.pending "User has not authorized yet. Please complete authorization at real-debrid.com/device",
           store) := by
  unfold oauth_check get_device_credentials
  simp [h]

/-- Witness for C4 at a concrete 403 poll response. -/
theorem c4_non200_poll_pending_noop_witness :
    oauth_check ⟨403, Json.null⟩ ⟨200, Json.null⟩
        [("S", ⟨"AT", "RT", 100, "c", "s"⟩)] 100 "deadbeef" =
      .ok (.pending "User has not authorized yet. Please complete authorization at real-debrid.com/device",
           [("S", ⟨"AT", "RT", 100, "c", "s"⟩)]) :=
  c4_non200_poll_pending_noop ⟨403, Json.null⟩ ⟨200, Json.null⟩
    [("S", ⟨"AT", "RT", 100, "c", "s"⟩)] 100 "deadbeef" (by decide)

/-- Claim C5: for a session id absent from the store, each of the four
proxied operations raises the invalid-session `ToolError` with its
authenticate-first instruction, issues no downstream request, performs no
refresh, and leaves the store unchanged. -/
theorem c5_unknown_session_invalid (store : TokenStore) (session_id : String)
    (tCheck tWrite : Int) (refreshResp userResp : HttpResp)
    (link : String) (password : Option String) (linkResp : HttpResp)
    (filt : Option String) (listResp : HttpResp)
    (magnet : String) (addResp : HttpResp)
    (h : store.find session_id = none) :
    get_user_info store session_id tCheck tWrite refreshResp userResp =
      { result := .error (.toolError "Invalid session_id. Please authenticate first using oauth_start and oauth_check.")
        store := store, refreshCalled := false, sentRequest := none }
  ∧ unrestrict_link store session_id link password linkResp =
      { result := .error (.toolError "Invalid session_id. Please authenticate first.")
        store := store, refreshCalled := false, sentRequest := none }
  ∧ list_torrents store session_id filt listResp =
      { result := .error (.toolError "Invalid session_id. Please authenticate first.")
        store := store, refreshCalled := false, sentRequest := none }
  ∧ add_magnet store session_id magnet addResp =
      { result := .error (.toolError "Invalid session_id. Please authenticate first.")
        store := store, refreshCalled := false, sentRequest := none } := by
  refine ⟨?_, ?_, ?_, ?_⟩
  · unfold get_user_info
    rw [h]
  · unfold unrestrict_link
    rw [h]
  · unfold list_torrents
    rw [h]
  · unfold add_magnet
    rw [h]

/-- Witness for C5 on the empty store. -/
theorem c5_unknown_session_invalid_witness :
    get_user_info [] "nope" 0 0 ⟨200, Json.null⟩ ⟨200, Json.null⟩ =
      { result := .error (.toolError "Invalid session_id. Please authenticate first using oauth_start and oauth_check.")
        store := [], refreshCalled := false, sentRequest := none }
  ∧ unrestrict_link [] "nope" "http://x" none ⟨200, Json.null⟩ =
      { result := .error (.toolError "Invalid session_id. Please authenticate first.")
        store := [], refreshCalled := false, sentRequest := none }
  ∧ list_torrents [] "nope" none ⟨200, Json.null⟩ =
      { result := .error (.toolError "Invalid session_id. Please authenticate first.")
        store := [], refreshCalled := false, sentRequest := none }
  ∧ add_magnet [] "nope" "magnet:x" ⟨200, Json.null⟩ =
      { result := .error (.toolError "Invalid session_id. Please authenticate first.")
        store := [], refreshCalled := false, sentRequest := none } :=
  c5_unknown_session_invalid [] "nope" 0 0 ⟨200, Json.null⟩ ⟨200, Json.null⟩
    "http://x" none ⟨200, Json.null⟩ none ⟨200, Json.null⟩ "magnet:x" ⟨200, Json.null⟩
    rfl

/-- Claim C6: `rd_api_request` maps a 204 response to the success
sentinel, any other 2xx to the parsed payload verbatim, and any status
>= 400 to the structured upstream error carrying the remote-provided
`error` and `error_code` values unmodified (never a success). -/
theorem c6_response_mapping (resp : HttpResp) :
    (resp.status = 204 →
      rd_api_request resp = .ok (Json.mkObj [("success", .boolean true)]))
  ∧ (200 ≤ resp.status → resp.status < 300 → resp.status ≠ 204 →
      rd_api_request resp = .ok resp.body)
  ∧ (∀ msg code : Json, 400 ≤ resp.status →
      resp.body.get "error" = some msg → resp.body.get "error_code" = some code →
      rd_api_request resp = .error (.upstream msg code)) := by
  refine ⟨?_, ?_, ?_⟩
  · intro h
    simp [rd_api_request, h]
  · intro h1 h2 h3
    have h4 : ¬ resp.status ≥ 400 := by omega
    simp [rd_api_request, h3, h4]
  · intro msg code h4 hm hc
    have h204 : resp.status ≠ 204 := by omega
    simp [rd_api_request, h204, h4, Json.getD, hm, hc]

/-- Witness for C6: the three cases at concrete responses, including the
spec's `password_protected` / code 19 scenario. -/
theorem c6_response_mapping_witness :
    rd_api_request ⟨204, Json.null⟩ = .ok (Json.mkObj [("success", .boolean true)])
  ∧ rd_api_request ⟨200, Json.mkObj [("id", .num 1)]⟩ = .ok (Json.mkObj [("id", .num 1)])
  ∧ rd_api_request ⟨400, Json.mkObj [("error", .str "password_protected"),
                                     ("error_code", .num 19)]⟩ =
      .error (.upstream (.str "password_protected") (.num 19)) :=
  ⟨(c6_response_mapping ⟨204, Json.null⟩).1 (by decide),
   (c6_response_mapping ⟨200, Json.mkObj [("id", .num 1)]⟩).2.1
     (by decide) (by decide) (by decide),
   (c6_response_mapping ⟨400, Json.mkObj [("error", .str "password_protected"),
                                          ("error_code", .num 19)]⟩).2.2
     (.str "password_protected") (.num 19) (by decide) (by decide) (by decide)⟩

/-- Claim C7: the claim says a rejected refresh fails with a structured
upstream error preserving the remote message/code.  The code never
inspects the refresh response's status: on a rejection body it raises
`KeyError("access_token")`, losing the remote `error`/`error_code`, and a
non-2xx response whose body happens to carry token fields is treated as
success. -/
theorem c7_refresh_rejection_raises_keyerror :
    refresh_access_token ⟨400, Json.mkObj [("error", .str "invalid_grant"),
                                           ("error_code", .num 9)]⟩ =
      .error (.keyError "access_token")
  ∧ refresh_access_token ⟨500, Json.mkObj [("access_token", .str "at2"),
                                           ("refresh_token", .str "rt2"),
                                           ("expires_in", .num 3600)]⟩ =
      .ok ⟨"at2", "rt2", 3600⟩ := by
  decide

/-- Claim C8 counterexample: the minted id is
`session_{int(time)}_{urandom(4).hex()}`, so it is NOT unique for every
possible timing and random draw.  Here a completion at second 100 with
random suffix `deadbeef` mints exactly the id already stored, and the
successful `oauth_check` silently overwrites the existing record instead
of adding a new one. -/
theorem c8_collision_counterexample :
    TokenStore.find [("session_100_deadbeef", ⟨"oldat", "oldrt", 500, "oldcid", "oldcs"⟩)]
        (mintSessionId 100 "deadbeef") =
      some ⟨"oldat", "oldrt", 500, "oldcid", "oldcs"⟩
  ∧ oauth_check
      ⟨200, Json.mkObj [("client_id", .str "cid2"), ("client_secret", .str "cs2")]⟩
      ⟨200, Json.mkObj [("access_token", .str "at2"), ("refresh_token", .str "rt2"),
                        ("expires_in", .num 3600)]⟩
      [("session_100_deadbeef", ⟨"oldat", "oldrt", 500, "oldcid", "oldcs"⟩)]
      100 "deadbeef" =
    .ok (.authorized "session_100_deadbeef" 3600,
         [("session_100_deadbeef", ⟨"at2", "rt2", 3700, "cid2", "cs2"⟩)]) := by
  decide

/-- Claim C8 amended: when the minted id `session_{t}_{r}` is not already
a key of the store (in particular whenever no stored session shares both
the same integer second and the same 4-byte random draw), a successful
`oauth_check` returns that fresh id, adds exactly one record for it with
the exchanged tokens and per-authorization client credentials, and leaves
every existing record untouched; when the id does collide, the existing
record is silently overwritten (see the counterexample). -/
theorem c8_fresh_mint_unique (credsResp tokenResp : HttpResp)
    (store : TokenStore) (tNow : Int) (rand : String)
    (creds : Creds) (tokens : TokenTriple)
    (hc : get_device_credentials credsResp = .ok (some creds))
    (ht : get_access_token tokenResp = .ok (some tokens))
    (hfresh : store.find (mintSessionId tNow rand) = none) :
    ∃ store2 : TokenStore,
      oauth_check credsResp tokenResp store tNow rand =
        .ok (.authorized (mintSessionId tNow rand) tokens.expiresIn, store2)
      ∧ store2.find (mintSessionId tNow rand) =
          some ⟨tokens.accessToken, tokens.refreshToken, tNow + tokens.expiresIn,
                creds.clientId, creds.clientSecret⟩
      ∧ (∀ k, k ≠ mintSessionId tNow rand → store2.find k = store.find k)
      ∧ store2.length = store.length + 1 := by
  refine ⟨store.insert (mintSessionId tNow rand)
    ⟨tokens.accessToken, tokens.refreshToken, tNow + tokens.expiresIn,
     creds.clientId, creds.clientSecret⟩, ?_, ?_, ?_, ?_⟩
  · unfold oauth_check
    rw [hc, ht]
  · rw [TokenStore.find_insert]
    simp
  · intro k hk
    rw [TokenStore.find_insert, if_neg hk]
  · exact TokenStore.length_insert_of_fresh store (mintSessionId tNow rand) _ hfresh

/-- Witness for the amended C8: a store holding one session minted at a
different second; the new completion at second 100 adds a second record
and preserves the first. -/
theorem c8_fresh_mint_unique_witness :
    ∃ store2 : TokenStore,
      oauth_check
          ⟨200, Json.mkObj [("client_id", .str "cid2"), ("client_secret", .str "cs2")]⟩
          ⟨200, Json.mkObj [("access_token", .str "at2"), ("refresh_token", .str "rt2"),
                            ("expires_in", .num 3600)]⟩
          [("session_99_aaaaaaaa", ⟨"a", "b", 1, "c", "d"⟩)] 100 "deadbeef" =
        .ok (.authorized (mintSessionId 100 "deadbeef") 3600, store2)
      ∧ store2.find (mintSessionId 100 "deadbeef") =
          some ⟨"at2", "rt2", 3700, "cid2", "cs2"⟩
      ∧ (∀ k, k ≠ mintSessionId 100 "deadbeef" →
          store2.find k = TokenStore.find [("session_99_aaaaaaaa", ⟨"a", "b", 1, "c", "d"⟩)] k)
      ∧ store2.length = 2 :=
  c8_fresh_mint_unique
    ⟨200, Json.mkObj [("client_id", .str "cid2"), ("client_secret", .str "cs2")]⟩
    ⟨200, Json.mkObj [("access_token", .str "at2"), ("refresh_token", .str "rt2"),
                      ("expires_in", .num 3600)]⟩
    [("session_99_aaaaaaaa", ⟨"a", "b", 1, "c", "d"⟩)] 100 "deadbeef"
    ⟨"cid2", "cs2"⟩ ⟨"at2", "rt2", 3600⟩ (by decide) (by decide) (by decide)

/-- Claim C9: the claim requires the read-check-refresh-write sequence to
be single-flight per session.  The code holds no lock: `await
refresh_access_token` suspends each task between its expiry check and its
store write, so the legal interleaving A-check, B-check, A-write, B-write
over one expired session issues two refresh calls (both spending the same
stored refresh token), not one. -/
theorem c9_concurrent_expired_double_refresh :
    (runSchedule "S" 200 ⟨"atA", "rtA", 3600⟩ ⟨"atB", "rtB", 3600⟩
      [false, true, false, true]
      { store := [("S", ⟨"at0", "rt0", 100, "cid", "cs"⟩)]
        refreshCalls := 0, phaseA := .start, phaseB := .start }).refreshCalls = 2 := by
  decide

/-- Claim C10: `if password:` treats the empty string like `None`, so
`unrestrict_link` with an empty-string password produces exactly the same
outcome (same downstream request body) as with the password omitted. -/
theorem c10_empty_password_eq_omitted (store : TokenStore)
    (session_id link : String) (linkResp : HttpResp) :
    unrestrict_link store session_id link (some "") linkResp =
      unrestrict_link store session_id link none linkResp := by
  unfold unrestrict_link
  cases store.find session_id <;> simp [pyTruthy]

end RDMCP
